import Mathlib

/-!
Shallow embedding of the TRX auto-forwarder core (src/src/forwarder.js,
src/src/tronService.js, and the configuration loader).

Amounts are TRX values; JavaScript numbers are modelled as rationals.
Network effects (balance reads, transaction submission) are modelled by
passing the environment's response to each operation as an explicit
argument of type `Except JsError _`; a thrown JavaScript exception is the
`.error` case.
-/

namespace Tron

/-- A JavaScript exception as observed by the forwarder: only its
`message` string is inspected (forwarder.js line 178). -/
structure JsError where
  message : String
deriving DecidableEq

/-- Configuration produced by `loadConfig` (config source, lines 29-51).
`minAmount`, `reserveAmount` are TRX amounts; `checkInterval` is in
milliseconds. -/
structure Config where
  privateKey : String
  watchAddress : String
  destinationAddress : String
  minAmount : ℚ
  reserveAmount : ℚ
  checkInterval : Int
  tronApiKey : Option String
deriving DecidableEq

/-- Truthiness of a JavaScript string: the empty string is falsy. Works on
the character list so that proofs can evaluate it. -/
def truthyS (s : String) : Bool :=
  !s.data.isEmpty

/-- Address validation (config source, lines 8-13): starts with T and has
length 34. String operations are modelled on the character list. -/
def isValidTronAddress (address : String) : Bool :=
  (match address.data with
   | [] => false
   | c :: _ => c == 'T') && address.data.length == 34

/-- One character of the hex-key regex `[0-9a-fA-F]`. -/
def isHexChar (c : Char) : Bool :=
  (('0' ≤ c && c ≤ '9') || ('a' ≤ c && c ≤ 'f') || ('A' ≤ c && c ≤ 'F'))

/-- Private-key validation (config source, lines 19-24): 64 hex characters. -/
def isValidPrivateKey (key : String) : Bool :=
  key.data.length == 64 && key.data.all isHexChar

/-- The validation performed by `loadConfig` (config source, lines 53-100):
true exactly when the `errors` list stays empty. The JavaScript `isNaN`
checks are vacuous here because amounts are rationals, never NaN. -/
def configOk (c : Config) : Bool :=
  truthyS c.privateKey && isValidPrivateKey c.privateKey &&
  truthyS c.watchAddress && isValidTronAddress c.watchAddress &&
  truthyS c.destinationAddress && isValidTronAddress c.destinationAddress &&
  decide (0 < c.minAmount) &&
  decide (0 ≤ c.reserveAmount) &&
  decide (c.reserveAmount < c.minAmount) &&
  decide (1000 ≤ c.checkInterval)

/-- Session statistics (forwarder.js lines 16-20). -/
structure Stats where
  transfersCount : Nat
  totalAmount : ℚ
  startTime : Int
deriving DecidableEq

/-- Mutable state of a `TrxForwarder` (forwarder.js lines 11-20).
`resyncScheduled` records that the deferred 5-second balance resync
(forwarder.js line 164) has been scheduled; the resync itself is a
detached task and runs outside the forward attempt. -/
structure ForwarderState where
  lastBalance : ℚ
  isProcessing : Bool
  checkIntervalId : Option Nat
  stats : Stats
  resyncScheduled : Bool
deriving DecidableEq

/-- List-of-characters prefix test, used to model JavaScript
`String.prototype.includes`. -/
def isPrefixOfL : List Char → List Char → Bool
  | [], _ => true
  | _ :: _, [] => false
  | a :: as, b :: bs => a == b && isPrefixOfL as bs

/-- Substring containment on character lists. -/
def containsSub (pat : List Char) : List Char → Bool
  | [] => isPrefixOfL pat []
  | c :: rest => isPrefixOfL pat (c :: rest) || containsSub pat rest

/-- JavaScript `s.includes(pat)`. -/
def strIncludes (s pat : String) : Bool :=
  containsSub pat.data s.data

/-- The message fragment tested at forwarder.js line 178. -/
def feeInsufficientMsg : String := "balance is not sufficient"

/-- Truthiness of an optional JavaScript string: `undefined` and the empty
string are falsy. -/
def truthyStr : Option String → Bool
  | none => false
  | some s => truthyS s

/-- JavaScript `a || b` on optional strings, as in
`result.txid || result.transaction?.txID` (tronService.js line 112). -/
def jsOrStr (a b : Option String) : Option String :=
  if truthyStr a then a else b

/-- Result object returned by `TronService.sendTrx` on the normal path
(tronService.js lines 117-122). -/
structure SendResult where
  success : Bool
  txid : Option String
  amount : ℚ
  toAddress : String
deriving DecidableEq

/-- The node's response to `sendRawTransaction` as used by `sendTrx`
(tronService.js lines 109-124): the `result` flag, the two places a txid
may live, and an optional error message. -/
structure NodeResponse where
  result : Bool
  txid : Option String
  transactionTxID : Option String
  message : Option String
deriving DecidableEq

/-- Fallback message at tronService.js line 124. -/
def unknownSendErrorMsg : String :=
  "Неизвестная ошибка при отправке транзакции"

/-- `TronService.sendTrx` (tronService.js lines 91-130). `buildAndSign`
is the combined outcome of the transaction-builder and signing steps
(lines 99-106); `broadcast` is the outcome of `sendRawTransaction`
(line 109). Every caught error is rethrown (line 128), so failures are
always `.error`. -/
def sendTrx (toAddress : String) (amount : ℚ)
    (buildAndSign : Except JsError Unit)
    (broadcast : Except JsError NodeResponse) : Except JsError SendResult :=
  match buildAndSign with
  | .error e => .error e
  | .ok _ =>
    match broadcast with
    | .error e => .error e
    | .ok r =>
      if r.result then
        .ok { success := true, txid := jsOrStr r.txid r.transactionTxID,
              amount := amount, toAddress := toAddress }
      else
        .error { message :=
          match r.message with
          | some m => if truthyS m then m else unknownSendErrorMsg
          | none => unknownSendErrorMsg }

/-- Classification of one forward attempt, following the branch structure
of `forwardTRX` (forwarder.js lines 117-186). -/
inductive ForwardOutcome
  | belowThreshold
  | reserveExceedsBalance
  | forwarded (amount : ℚ)
  | submitFailed (feeInsufficient : Bool)
  | resultNotSuccess
deriving DecidableEq

/-- Result of one `forwardTRX` call: the post-state, the list of transfers
actually submitted to the chain during the call (destination, amount), and
the outcome classification. -/
structure ForwardResult where
  state : ForwarderState
  submitted : List (String × ℚ)
  outcome : ForwardOutcome
deriving DecidableEq

/-- Guard set on entry to `forwardTRX` (forwarder.js line 119). -/
def forwardEntry (s : ForwarderState) : ForwarderState :=
  { s with isProcessing := true }

/-- Guard cleared by the `finally` block (forwarder.js line 184), executed
on every exit path of `forwardTRX`. -/
def forwardExit (s : ForwarderState) : ForwarderState :=
  { s with isProcessing := false }

/-- Body of the `try` block of `forwardTRX` (forwarder.js lines 121-181),
starting from the state after the guard was set. `submit` is the outcome
of the `sendTrx` call (line 150); it is only consulted on the branch that
actually submits. The `finally` clearing of the guard is applied on every
path. -/
def forwardBody (cfg : Config) (s : ForwarderState) (balance : ℚ)
    (submit : Except JsError SendResult) : ForwardResult :=
  if balance < cfg.minAmount then
    { state := forwardExit s, submitted := [], outcome := .belowThreshold }
  else
    let amountToSend := balance - cfg.reserveAmount
    if amountToSend ≤ 0 then
      { state := forwardExit s, submitted := [], outcome := .reserveExceedsBalance }
    else
      match submit with
      | .error e =>
        { state := forwardExit s,
          submitted := [(cfg.destinationAddress, amountToSend)],
          outcome := .submitFailed
            (truthyS e.message && strIncludes e.message feeInsufficientMsg) }
      | .ok result =>
        if result.success then
          { state := forwardExit
              { s with
                stats := { s.stats with
                  transfersCount := s.stats.transfersCount + 1,
                  totalAmount := s.stats.totalAmount + amountToSend },
                resyncScheduled := true },
            submitted := [(cfg.destinationAddress, amountToSend)],
            outcome := .forwarded amountToSend }
        else
          { state := forwardExit s,
            submitted := [(cfg.destinationAddress, amountToSend)],
            outcome := .resultNotSuccess }

/-- `TrxForwarder.forwardTRX` (forwarder.js lines 117-186): set the guard,
run the body, with the guard cleared on every exit path. -/
def forwardTRX (cfg : Config) (s : ForwarderState) (balance : ℚ)
    (submit : Except JsError SendResult) : ForwardResult :=
  forwardBody cfg (forwardEntry s) balance submit

/-- Classification of one `checkBalance` tick, following the branch
structure of forwarder.js lines 75-111. -/
inductive TickOutcome
  | skipped
  | readError
  | increase (received : ℚ) (fwd : ForwardOutcome)
  | decrease
  | unchanged
deriving DecidableEq

/-- Result of one `checkBalance` call. -/
structure TickResult where
  state : ForwarderState
  submitted : List (String × ℚ)
  outcome : TickOutcome
deriving DecidableEq

/-- `TrxForwarder.checkBalance` (forwarder.js lines 75-111). `readBalance`
is the outcome of the `getBalance` call (line 84); `submit` is the outcome
of the `sendTrx` call of the nested `forwardTRX`, consulted only when an
increase is detected. Note that on an increase, `lastBalance` is updated
(line 97) before `forwardTRX` is invoked (line 100). -/
def checkBalance (cfg : Config) (s : ForwarderState)
    (readBalance : Except JsError ℚ)
    (submit : Except JsError SendResult) : TickResult :=
  if s.isProcessing then
    { state := s, submitted := [], outcome := .skipped }
  else
    match readBalance with
    | .error _ => { state := s, submitted := [], outcome := .readError }
    | .ok currentBalance =>
      if currentBalance > s.lastBalance then
        let received := currentBalance - s.lastBalance
        let s1 := { s with lastBalance := currentBalance }
        let fr := forwardTRX cfg s1 currentBalance submit
        { state := fr.state, submitted := fr.submitted,
          outcome := .increase received fr.outcome }
      else if currentBalance < s.lastBalance then
        { state := { s with lastBalance := currentBalance },
          submitted := [], outcome := .decrease }
      else
        { state := s, submitted := [], outcome := .unchanged }

/-- `TrxForwarder.start` (forwarder.js lines 26-58). `initialRead` is the
outcome of the initial `getBalance` (line 35); a failure there escapes the
`try` block and is rethrown (line 56). On success the timer is armed
(line 47, handle `handle`) and one immediate `checkBalance` runs
(line 53) with read outcome `firstRead` and submission outcome
`firstSubmit`. -/
def start (cfg : Config) (s : ForwarderState) (handle : Nat)
    (initialRead : Except JsError ℚ)
    (firstRead : Except JsError ℚ)
    (firstSubmit : Except JsError SendResult) : Except JsError TickResult :=
  match initialRead with
  | .error e => .error e
  | .ok initialBalance =>
    let s1 := { s with lastBalance := initialBalance,
                       checkIntervalId := some handle }
    .ok (checkBalance cfg s1 firstRead firstSubmit)

/-- `TrxForwarder.stop` (forwarder.js lines 63-70). Returns the new state
and whether the final statistics were displayed (`displayStats`,
line 68): only when a timer was still armed. -/
def stop (s : ForwarderState) : ForwarderState × Bool :=
  match s.checkIntervalId with
  | some _ => ({ s with checkIntervalId := none }, true)
  | none => (s, false)

/-!
Interleaved semantics of the polling loop. JavaScript is single-threaded
but every `await` yields to the event loop, so a `setInterval` tick can
begin a new `checkBalance` invocation while an earlier one is suspended at
a network call. Each task below is one `checkBalance` invocation, recorded
at its current suspension point; a scheduler action either fires the timer
(spawning a task that runs synchronously up to its first `await`) or
resumes one suspended task, which then runs synchronously up to its next
`await` or to completion.
-/

/-- Suspension point of one `checkBalance` invocation. `awaitingRead v`:
the guard check (line 77) passed and `getBalance` (line 84) is pending and
will return `v`. `awaitingSubmit a`: the compare, the `lastBalance` update
(line 97), and the synchronous head of `forwardTRX`/`sendTrx` ran, the
guard is held, and the submission of `a` TRX is pending. -/
inductive TaskPc
  | awaitingRead (readVal : ℚ)
  | awaitingSubmit (amountToSend : ℚ)
  | finished (skipped : Bool)
deriving DecidableEq

/-- Global state of the interleaved system. -/
structure SysState where
  lastBalance : ℚ
  isProcessing : Bool
  transfersCount : Nat
  totalAmount : ℚ
  tasks : List TaskPc
deriving DecidableEq

/-- One scheduler action: a timer tick (carrying the value the new task's
balance read will eventually return) or the completion of the pending
network operation of task `i` (carrying whether a pending submission
succeeds). -/
inductive SchedAction
  | tick (readVal : ℚ)
  | resume (i : Nat) (submitOk : Bool)
deriving DecidableEq

/-- Timer tick: a new `checkBalance` invocation runs synchronously up to
its first `await`. The guard check (forwarder.js line 77) happens
immediately; if the guard is held the invocation finishes as a skip,
otherwise the balance read (line 84) is started. -/
def stepTick (σ : SysState) (readVal : ℚ) : SysState :=
  if σ.isProcessing then
    { σ with tasks := σ.tasks ++ [.finished true] }
  else
    { σ with tasks := σ.tasks ++ [.awaitingRead readVal] }

/-- Resume a task whose pending network operation completed. From a
resolved balance read, the compare (lines 87-105), the `lastBalance`
update (line 97) and the synchronous prefix of `forwardTRX` up to the
submission `await` (lines 119-150) run as one uninterrupted segment. From
a resolved submission, the stats update (lines 157-158) and the `finally`
guard release (line 184) run as one segment. -/
def resumeTask (cfg : Config) (σ : SysState) (t : TaskPc) (submitOk : Bool) :
    SysState × TaskPc :=
  match t with
  | .awaitingRead v =>
    if v > σ.lastBalance then
      let σ1 := { σ with lastBalance := v, isProcessing := true }
      if v < cfg.minAmount then
        ({ σ1 with isProcessing := false }, .finished false)
      else
        let amountToSend := v - cfg.reserveAmount
        if amountToSend ≤ 0 then
          ({ σ1 with isProcessing := false }, .finished false)
        else
          (σ1, .awaitingSubmit amountToSend)
    else if v < σ.lastBalance then
      ({ σ with lastBalance := v }, .finished false)
    else
      (σ, .finished false)
  | .awaitingSubmit a =>
    if submitOk then
      ({ σ with transfersCount := σ.transfersCount + 1,
                totalAmount := σ.totalAmount + a,
                isProcessing := false }, .finished false)
    else
      ({ σ with isProcessing := false }, .finished false)
  | .finished b => (σ, .finished b)

/-- Apply one scheduler action. -/
def stepAction (cfg : Config) (σ : SysState) : SchedAction → SysState
  | .tick v => stepTick σ v
  | .resume i submitOk =>
    match σ.tasks.get? i with
    | none => σ
    | some t =>
      let p := resumeTask cfg σ t submitOk
      { p.1 with tasks := σ.tasks.set i p.2 }

/-- Run a whole schedule. -/
def run (cfg : Config) (σ : SysState) : List SchedAction → SysState
  | [] => σ
  | a :: rest => run cfg (stepAction cfg σ a) rest

/-- Number of forward attempts currently in flight: tasks suspended at a
pending transaction submission. -/
def countInFlight (σ : SysState) : Nat :=
  σ.tasks.countP fun t =>
    match t with
    | .awaitingSubmit _ => true
    | _ => false

/-!
Concrete instances used by witnesses and counterexamples. The numbers
follow the spec scenarios: `minAmount = 1.5`, `reserveAmount = 1`,
`lastKnownBalance = 10`.
-/

/-- A configuration that passes `loadConfig` validation. -/
def cfgEx : Config :=
  { privateKey := "0123456789abcdef0123456789abcdef0123456789abcdef0123456789abcdef"
    watchAddress := "TWatchAAAAAAAAAAAAAAAAAAAAAAAAAAAA"
    destinationAddress := "TDestAAAAAAAAAAAAAAAAAAAAAAAAAAAAA"
    minAmount := 3 / 2
    reserveAmount := 1
    checkInterval := 3000
    tronApiKey := none }

/-- A forwarder state right after start: last balance 10, idle. -/
def stateEx : ForwarderState :=
  { lastBalance := 10
    isProcessing := false
    checkIntervalId := some 7
    stats := { transfersCount := 0, totalAmount := 0, startTime := 0 }
    resyncScheduled := false }

/-- A successful node response carrying a txid. -/
def nodeRespOk : NodeResponse :=
  { result := true, txid := some ("txabc"), transactionTxID := none,
    message := none }

/-- A successful node response with `result: true` but no txid anywhere. -/
def nodeRespNoTxid : NodeResponse :=
  { result := true, txid := none, transactionTxID := none, message := none }

/-- The submission error thrown in spec scenario 5. -/
def submitErrEx : JsError := { message := "balance is not sufficient" }

/-- A successful `sendTrx` result as fed back to `forwardTRX`. -/
def sendOkEx : SendResult :=
  { success := true, txid := some ("txabc"), amount := 11,
    toAddress := cfgEx.destinationAddress }

/-- First tick of the C2 scenario: balance rises 10 → 12 and the
submission throws. -/
def tickFail1 : TickResult :=
  checkBalance cfgEx stateEx (.ok 12) (.error submitErrEx)

/-- Second tick of the C2 scenario: the external balance is still 12. -/
def tickFail2 : TickResult :=
  checkBalance cfgEx tickFail1.state (.ok 12) (.ok sendOkEx)

/-- Initial interleaved-system state: last balance 10, idle, no tasks. -/
def sysEx : SysState :=
  { lastBalance := 10, isProcessing := false, transfersCount := 0,
    totalAmount := 0, tasks := [] }

/-- A schedule in which a second timer tick passes the guard check while
the first tick is still awaiting its balance read: tick A will read 12,
tick B will read 15 (a further deposit lands mid-flight), then A resumes
and submits, then B resumes and also submits. -/
def scheduleEx : List SchedAction :=
  [.tick 12, .tick 15, .resume 0 true, .resume 1 true]

/-- A forwarder state with a forward attempt in flight. -/
def busyEx : ForwarderState := { stateEx with isProcessing := true }

/-- A read failure used by witnesses. -/
def readErrEx : JsError := { message := "timeout" }

/-!
Helper lemmas shared by several theorems.
-/

/-- A forward attempt never touches `lastBalance`: the only `lastBalance`
writes are in `checkBalance` (lines 97 and 104) and in the detached
deferred resync, never in `forwardTRX` itself. -/
theorem forwardTRX_keeps_lastBalance (cfg : Config) (s : ForwarderState)
    (b : ℚ) (submit : Except JsError SendResult) :
    (forwardTRX cfg s b submit).state.lastBalance = s.lastBalance := by
  unfold forwardTRX forwardBody forwardEntry forwardExit
  by_cases h1 : b < cfg.minAmount
  · simp [h1]
  · by_cases h2 : b - cfg.reserveAmount ≤ 0
    · simp [h1, h2]
    · cases submit with
      | error e => simp [h1, h2]
      | ok r => by_cases h3 : r.success <;> simp [h1, h2, h3]

/-- A second `stop` sees no armed timer and does nothing. -/
theorem stop_of_stopped (t : ForwarderState) (h : t.checkIntervalId = none) :
    stop t = (t, false) := by
  simp [stop, h]

/-!
Claim theorems.
-/

/-- C1: for every balance `b` passed to the forward attempt with
`b ≥ minAmount` and `b - reserveAmount > 0`, exactly one transfer is
submitted, its amount is exactly `b - reserveAmount`, and its recipient is
`destinationAddress`. -/
theorem forwardTRX_submits_exact (cfg : Config) (s : ForwarderState) (b : ℚ)
    (submit : Except JsError SendResult)
    (hmin : cfg.minAmount ≤ b) (hres : 0 < b - cfg.reserveAmount) :
    (forwardTRX cfg s b submit).submitted =
      [(cfg.destinationAddress, b - cfg.reserveAmount)] := by
  unfold forwardTRX forwardBody
  have h1 : ¬ b < cfg.minAmount := not_lt.mpr hmin
  have h2 : ¬ b - cfg.reserveAmount ≤ 0 := not_le.mpr hres
  cases submit with
  | error e => simp [h1, h2]
  | ok r => by_cases h3 : r.success <;> simp [h1, h2, h3]

/-- Witness for C1 at the spec scenario: balance 12, threshold 1.5,
reserve 1 submits exactly one transfer of 11 to the destination. -/
theorem forwardTRX_submits_exact_w :
    (cfgEx.minAmount ≤ (12 : ℚ) ∧ 0 < (12 : ℚ) - cfgEx.reserveAmount) ∧
    (forwardTRX cfgEx stateEx 12 (.ok sendOkEx)).submitted =
      [(cfgEx.destinationAddress, 12 - cfgEx.reserveAmount)] :=
  ⟨⟨by norm_num [cfgEx], by norm_num [cfgEx]⟩,
   forwardTRX_submits_exact cfgEx stateEx 12 (.ok sendOkEx)
     (by norm_num [cfgEx]) (by norm_num [cfgEx])⟩

/-- C2 (amended): if the transfer submission throws, SessionStats are not
incremented and the forward attempt itself does not mutate
`lastKnownBalance`; but a tick that observes a balance equal to the
current `lastKnownBalance` is classified as unchanged and submits nothing,
so the failed forward is not re-attempted on a next tick with the same
external balance. -/
theorem submitFailure_no_stats_no_redetect (cfg : Config)
    (s s2 : ForwarderState) (b : ℚ) (e : JsError)
    (submit2 : Except JsError SendResult)
    (h : s2.isProcessing = false) :
    (forwardTRX cfg s b (.error e)).state.stats = s.stats ∧
    (forwardTRX cfg s b (.error e)).state.lastBalance = s.lastBalance ∧
    checkBalance cfg s2 (.ok s2.lastBalance) submit2 =
      { state := s2, submitted := [], outcome := .unchanged } := by
  refine ⟨?_, forwardTRX_keeps_lastBalance cfg s b (.error e), ?_⟩
  · unfold forwardTRX forwardBody forwardEntry forwardExit
    by_cases h1 : b < cfg.minAmount
    · simp [h1]
    · by_cases h2 : b - cfg.reserveAmount ≤ 0 <;> simp [h1, h2]
  · simp [checkBalance, h]

/-- Witness for C2's amended theorem at the spec scenario numbers. -/
theorem submitFailure_no_stats_no_redetect_w :
    stateEx.isProcessing = false ∧
    ((forwardTRX cfgEx stateEx 12 (.error submitErrEx)).state.stats =
        stateEx.stats ∧
      (forwardTRX cfgEx stateEx 12 (.error submitErrEx)).state.lastBalance =
        stateEx.lastBalance ∧
      checkBalance cfgEx stateEx (.ok stateEx.lastBalance) (.ok sendOkEx) =
        { state := stateEx, submitted := [], outcome := .unchanged }) :=
  ⟨rfl, submitFailure_no_stats_no_redetect cfgEx stateEx stateEx 12
    submitErrEx (.ok sendOkEx) rfl⟩

/-- C2 counterexample: after a tick in which the balance rose 10 → 12 and
the submission threw, `lastKnownBalance` is already 12 (it was updated by
`checkBalance` before the forward was invoked, forwarder.js line 97), so
the next tick observing the same external balance 12 is classified as
unchanged and re-attempts nothing — the claim's re-detection does not
happen. -/
theorem failed_submit_not_redetected :
    tickFail1.state.lastBalance = 12 ∧
    tickFail1.state.stats.transfersCount = 0 ∧
    tickFail1.state.isProcessing = false ∧
    tickFail2.outcome = .unchanged ∧
    tickFail2.submitted = [] := by
  norm_num [tickFail1, tickFail2, checkBalance, forwardTRX, forwardBody,
    forwardEntry, forwardExit, cfgEx, stateEx, submitErrEx]

/-- C3: for every balance `b` with `b < minAmount`, no transfer is
submitted, the outcome is classified below threshold, and the session
stats are untouched. -/
theorem belowThreshold_no_transfer (cfg : Config) (s : ForwarderState)
    (b : ℚ) (submit : Except JsError SendResult)
    (h : b < cfg.minAmount) :
    (forwardTRX cfg s b submit).submitted = [] ∧
    (forwardTRX cfg s b submit).outcome = .belowThreshold ∧
    (forwardTRX cfg s b submit).state.stats = s.stats := by
  unfold forwardTRX forwardBody
  rw [if_pos h]
  exact ⟨rfl, rfl, rfl⟩

/-- Witness for C3 at the spec scenario: balance 0.5, threshold 1.5. -/
theorem belowThreshold_no_transfer_w :
    ((1 : ℚ) / 2 < cfgEx.minAmount) ∧
    ((forwardTRX cfgEx stateEx (1 / 2) (.ok sendOkEx)).submitted = [] ∧
      (forwardTRX cfgEx stateEx (1 / 2) (.ok sendOkEx)).outcome =
        .belowThreshold ∧
      (forwardTRX cfgEx stateEx (1 / 2) (.ok sendOkEx)).state.stats =
        stateEx.stats) :=
  ⟨by norm_num [cfgEx],
   belowThreshold_no_transfer cfgEx stateEx (1 / 2) (.ok sendOkEx)
     (by norm_num [cfgEx])⟩

/-- C4: the in-flight guard is set true on entry to every forward attempt
and is false again when the attempt returns, whatever branch is taken
(below threshold, reserve exceeds balance, submission error, node
non-success, or success). -/
theorem guard_set_on_entry_cleared_on_exit (cfg : Config)
    (s : ForwarderState) (b : ℚ) (submit : Except JsError SendResult) :
    (forwardEntry s).isProcessing = true ∧
    (forwardTRX cfg s b submit).state.isProcessing = false := by
  refine ⟨rfl, ?_⟩
  unfold forwardTRX forwardBody forwardEntry forwardExit
  by_cases h1 : b < cfg.minAmount
  · simp [h1]
  · by_cases h2 : b - cfg.reserveAmount ≤ 0
    · simp [h1, h2]
    · cases submit with
      | error e => simp [h1, h2]
      | ok r => by_cases h3 : r.success <;> simp [h1, h2, h3]

/-- C5 (amended): a `checkBalance` invoked while a forward is in flight
emits only a skip, returns the state untouched (guard flag, balance,
stats), and its result does not depend on the balance read or the
submission environment — the read never happens. -/
theorem skip_when_in_flight (cfg : Config) (s : ForwarderState)
    (r1 r2 : Except JsError ℚ) (sub1 sub2 : Except JsError SendResult)
    (h : s.isProcessing = true) :
    checkBalance cfg s r1 sub1 =
      { state := s, submitted := [], outcome := .skipped } ∧
    checkBalance cfg s r1 sub1 = checkBalance cfg s r2 sub2 := by
  constructor <;> simp [checkBalance, h]

/-- Witness for C5's amended theorem: an in-flight state skips and its
result is the same whether the read would return 12 or throw. -/
theorem skip_when_in_flight_w :
    busyEx.isProcessing = true ∧
    (checkBalance cfgEx busyEx (.ok 12) (.ok sendOkEx) =
        { state := busyEx, submitted := [], outcome := .skipped } ∧
      checkBalance cfgEx busyEx (.ok 12) (.ok sendOkEx) =
        checkBalance cfgEx busyEx (.error readErrEx) (.error submitErrEx)) :=
  ⟨rfl, skip_when_in_flight cfgEx busyEx (.ok 12) (.error readErrEx)
    (.ok sendOkEx) (.error submitErrEx) rfl⟩

/-- C5 counterexample: the guard does not ensure at most one forward in
flight for every sequence of tick timings. In the interleaved semantics,
two timer ticks both pass the guard check (line 77) while neither has yet
entered `forwardTRX`; after both balance reads resolve, two submissions
are pending at the same instant. -/
theorem two_forwards_in_flight :
    countInFlight (run cfgEx sysEx scheduleEx) = 2 := by
  norm_num [run, stepAction, stepTick, resumeTask, cfgEx, sysEx,
    scheduleEx, countInFlight, List.countP, List.countP.go]

/-- C6: after a tick in which the balance read succeeded and no forward
was in flight, `lastKnownBalance` equals the balance observed during that
tick, in all three branches (increase, decrease, unchanged). -/
theorem lastBalance_tracks_tick (cfg : Config) (s : ForwarderState)
    (current : ℚ) (submit : Except JsError SendResult)
    (h : s.isProcessing = false) :
    (checkBalance cfg s (.ok current) submit).state.lastBalance = current := by
  by_cases hgt : current > s.lastBalance
  · simp [checkBalance, h, hgt, forwardTRX_keeps_lastBalance]
  · by_cases hlt : current < s.lastBalance
    · simp [checkBalance, h, hgt, hlt]
    · simp only [checkBalance, h, hgt, hlt, Bool.false_eq_true, if_false]
      linarith

/-- Witness for C6 on the increase branch: observing 12 from a last
balance of 10 leaves `lastKnownBalance = 12`. -/
theorem lastBalance_tracks_tick_w :
    stateEx.isProcessing = false ∧
    (checkBalance cfgEx stateEx (.ok 12) (.ok sendOkEx)).state.lastBalance =
      12 :=
  ⟨rfl, lastBalance_tracks_tick cfgEx stateEx 12 (.ok sendOkEx) rfl⟩

/-- C7: `start` propagates a failure of the initial balance read to its
caller unchanged, whereas a balance read failure during a steady-state
tick is absorbed: the tick returns normally with the state untouched and
only a read-error classification. -/
theorem startup_fatal_steady_transient (cfg : Config)
    (s s2 : ForwarderState) (handle : Nat) (e e2 : JsError)
    (r : Except JsError ℚ) (sub sub2 : Except JsError SendResult)
    (h : s2.isProcessing = false) :
    start cfg s handle (.error e) r sub = .error e ∧
    checkBalance cfg s2 (.error e2) sub2 =
      { state := s2, submitted := [], outcome := .readError } := by
  exact ⟨rfl, by simp [checkBalance, h]⟩

/-- Witness for C7 at concrete failures. -/
theorem startup_fatal_steady_transient_w :
    stateEx.isProcessing = false ∧
    (start cfgEx stateEx 7 (.error readErrEx) (.ok 12) (.ok sendOkEx) =
        .error readErrEx ∧
      checkBalance cfgEx stateEx (.error readErrEx) (.ok sendOkEx) =
        { state := stateEx, submitted := [], outcome := .readError }) :=
  ⟨rfl, startup_fatal_steady_transient cfgEx stateEx stateEx 7 readErrEx
    readErrEx (.ok 12) (.ok sendOkEx) (.ok sendOkEx) rfl⟩

/-- C8: the first `stop` on a running forwarder disarms the timer and
emits the final statistics; every further `stop`, any number of times,
changes nothing and emits nothing. -/
theorem stop_idempotent (s : ForwarderState) (handle : Nat)
    (h : s.checkIntervalId = some handle) :
    (stop s).1.checkIntervalId = none ∧
    (stop s).2 = true ∧
    ∀ k : Nat,
      stop (Nat.iterate (fun u => (stop u).1) k (stop s).1) =
        ((stop s).1, false) := by
  have h1 : (stop s).1.checkIntervalId = none := by simp [stop, h]
  refine ⟨h1, by simp [stop, h], ?_⟩
  intro k
  have hfix : (fun u => (stop u).1) (stop s).1 = (stop s).1 := by
    show (stop (stop s).1).1 = (stop s).1
    rw [stop_of_stopped _ h1]
  rw [Function.iterate_fixed hfix k]
  exact stop_of_stopped _ h1

/-- Witness for C8 on a running state with timer handle 7. -/
theorem stop_idempotent_w :
    stateEx.checkIntervalId = some 7 ∧
    ((stop stateEx).1.checkIntervalId = none ∧
      (stop stateEx).2 = true ∧
      ∀ k : Nat,
        stop (Nat.iterate (fun u => (stop u).1) k (stop stateEx).1) =
          ((stop stateEx).1, false)) :=
  ⟨rfl, stop_idempotent stateEx 7 rfl⟩

/-- C9: under the load-time validation (in particular
`reserveAmount < minAmount`), every balance that passes the threshold
check leaves a strictly positive amount to send, so the
reserve-exceeds-balance branch of the forward attempt is unreachable. -/
theorem reserve_branch_unreachable (c : Config) (s : ForwarderState)
    (b : ℚ) (submit : Except JsError SendResult)
    (hc : configOk c = true) (hb : c.minAmount ≤ b) :
    0 < b - c.reserveAmount ∧
    (forwardTRX c s b submit).outcome ≠ .reserveExceedsBalance := by
  simp only [configOk, Bool.and_eq_true, decide_eq_true_eq] at hc
  have hrm : c.reserveAmount < c.minAmount := hc.1.2
  have hpos : 0 < b - c.reserveAmount := by linarith
  refine ⟨hpos, ?_⟩
  unfold forwardTRX forwardBody
  have h1 : ¬ b < c.minAmount := not_lt.mpr hb
  have h2 : ¬ b - c.reserveAmount ≤ 0 := not_le.mpr hpos
  cases submit with
  | error e => simp [h1, h2]
  | ok r => by_cases h3 : r.success <;> simp [h1, h2, h3]

/-- Witness for C9: the validated example configuration and balance 2. -/
theorem reserve_branch_unreachable_w :
    (configOk cfgEx = true ∧ cfgEx.minAmount ≤ (2 : ℚ)) ∧
    (0 < (2 : ℚ) - cfgEx.reserveAmount ∧
      (forwardTRX cfgEx stateEx 2 (.ok sendOkEx)).outcome ≠
        .reserveExceedsBalance) :=
  ⟨⟨by norm_num [configOk, cfgEx]; decide, by norm_num [cfgEx]⟩,
   reserve_branch_unreachable cfgEx stateEx 2 (.ok sendOkEx)
     (by norm_num [configOk, cfgEx]; decide) (by norm_num [cfgEx])⟩

/-- C10 (amended): `sendTrx` returns normally only with a result whose
success flag is true (so the forwarder's non-success branch is dead and a
throwing submission records no result object); the transaction id it
carries is whichever of the node's `txid` or `transaction.txID` is
present, and may be absent when the node supplies neither. -/
theorem sendTrx_success_contract (toAddr : String) (amt : ℚ)
    (bs : Except JsError Unit) (bc : Except JsError NodeResponse)
    (res : SendResult) (h : sendTrx toAddr amt bs bc = .ok res) :
    res.success = true ∧
    ∀ (cfg : Config) (s : ForwarderState) (b : ℚ),
      (forwardTRX cfg s b (sendTrx toAddr amt bs bc)).outcome ≠
        .resultNotSuccess := by
  have hsucc : res.success = true := by
    unfold sendTrx at h
    cases bs with
    | error e => simp at h
    | ok u =>
      cases bc with
      | error e => simp at h
      | ok r =>
        by_cases hr : r.result
        · simp only [hr, if_true, Except.ok.injEq] at h
          rw [← h]
        · simp [hr] at h
  refine ⟨hsucc, ?_⟩
  intro cfg s b
  rw [forwardTRX]
  unfold forwardBody
  by_cases h1 : b < cfg.minAmount
  · simp [h1]
  · by_cases h2 : b - cfg.reserveAmount ≤ 0
    · simp [h1, h2]
    · rw [h]
      simp [h1, h2, hsucc]

/-- Witness for C10's amended theorem at a concrete successful broadcast. -/
theorem sendTrx_success_contract_w :
    sendTrx cfgEx.destinationAddress 11 (.ok ()) (.ok nodeRespOk) =
      .ok sendOkEx ∧
    (sendOkEx.success = true ∧
      ∀ (cfg : Config) (s : ForwarderState) (b : ℚ),
        (forwardTRX cfg s b
            (sendTrx cfgEx.destinationAddress 11 (.ok ()) (.ok nodeRespOk))).outcome ≠
          .resultNotSuccess) := by
  have heq : sendTrx cfgEx.destinationAddress 11 (.ok ()) (.ok nodeRespOk) =
      .ok sendOkEx := by
    norm_num [sendTrx, nodeRespOk, jsOrStr, truthyStr, truthyS, sendOkEx]
  exact ⟨heq, sendTrx_success_contract cfgEx.destinationAddress 11 (.ok ())
    (.ok nodeRespOk) sendOkEx heq⟩

/-- C10 counterexample: a node response with `result: true` but no
transaction id anywhere makes `sendTrx` return normally with
`success: true` and no transaction id — a normal return does not always
carry one. -/
theorem sendTrx_ok_without_txid :
    sendTrx cfgEx.destinationAddress 11 (.ok ()) (.ok nodeRespNoTxid) =
      .ok { success := true, txid := none, amount := 11,
            toAddress := cfgEx.destinationAddress } := by
  norm_num [sendTrx, nodeRespNoTxid, jsOrStr, truthyStr]

end Tron
